import Mathlib

/-!
Verification of the output module of parallel-ssh (`pssh/output.py`)
against its natural-language specification.

The module defines `HostOutput`, the per-host result aggregate, with lazy
`stdout`/`stderr` accessors, a live `exit_code` query and a diagnostic
textual representation.  We embed the Python code shallowly:

* opaque collaborator values (channels, stdin handles, ring buffers,
  timeouts, exceptions) become structures carrying only the data the
  claims need (an identity, and where the textual representation needs
  it, a rendering string);
* the external `SSHClient` (not part of this module) becomes a record of
  arbitrary functions with the signatures the call sites use;
* Python generator values returned by the client's reader methods become
  values of inhabited types `ByteGen` / `TextGen`; the canonical client
  builds them from free constructors so that the wiring of a call is
  observable;
* a property body that can raise is translated into `Except PyErr`;
  reading an attribute of `None` raises `AttributeError`;
* since the accessors contain no assignment to `self`, each accessor is
  translated as a function returning its result *and* the post-state, so
  that frame properties are statements about the translation rather than
  artifacts of a pure model.
-/

/-- A concurrent read/write ring buffer (`pssh.clients.reader.ConcurrentRWBuffer`),
opaque at this module's boundary. -/
structure RWBuffer where
  id : Nat
deriving DecidableEq

/-- A greenlet draining a channel into a ring buffer, opaque here. -/
structure Reader where
  id : Nat
deriving DecidableEq

/-- `BufferData = namedtuple('BufferData', ['reader', 'rw_buffer'])`. -/
structure BufferData where
  reader : Reader
  rw_buffer : RWBuffer
deriving DecidableEq

/-- `HostOutputBuffers = namedtuple('HostOutputBuffers', ['stdout', 'stderr'])`. -/
structure HostOutputBuffers where
  stdout : BufferData
  stderr : BufferData
deriving DecidableEq

/-- An SSH channel object, opaque; `str` is its Python rendering. -/
structure Channel where
  str : String
deriving DecidableEq

/-- A stdin write handle, opaque; `str` is its Python rendering. -/
structure Stdin where
  str : String
deriving DecidableEq

/-- A Python exception value (anything caught by `except Exception`);
`str` is its Python rendering / message. -/
structure PyErr where
  str : String
deriving DecidableEq

/-- A read-timeout value (a Python float); opaque, `str` is its rendering. -/
structure Timeout where
  str : String
deriving DecidableEq

/-- Values produced by the client's `read_output` / `read_stderr` generator
methods.  The type is a free algebra so that a canonical client can build
distinguishable values; the constructors record the call's arguments. -/
inductive ByteGen where
  | read_output (buf : RWBuffer) (timeout : Option Timeout)
  | read_stderr (buf : RWBuffer) (timeout : Option Timeout)
  | other (id : Nat)
deriving DecidableEq

/-- Values produced by the client's `read_output_buffer` decoding wrapper:
a lazy decoded-text sequence over an underlying byte generator. -/
inductive TextGen where
  | wrap (src : ByteGen) (encoding : String) (pfx : Option String)
  | other (id : Nat)
deriving DecidableEq

/-- The external `SSHClient` collaborator, as consumed by `output.py`:
a record of the four methods the accessors call.  The functions are
arbitrary — the module's code is verified for every client. -/
structure Client where
  read_output : RWBuffer → Option Timeout → ByteGen
  read_stderr : RWBuffer → Option Timeout → ByteGen
  read_output_buffer : ByteGen → String → Option String → TextGen
  get_exit_status : Option Channel → Except PyErr (Option Int)
  str : String

/-- `HostOutput.__slots__`: the structure has exactly the eight slots of
the Python class, each `Option`-typed where the Python value may be `None`. -/
structure HostOutput where
  host : String
  channel : Option Channel
  stdin : Option Stdin
  client : Option Client
  exception : Option PyErr
  encoding : String
  read_timeout : Option Timeout
  buffers : Option HostOutputBuffers

/-- The `__slots__` tuple of `HostOutput`, verbatim from the source. -/
def HostOutput.slots : List String :=
  ["host", "channel", "stdin",
   "client", "exception", "encoding", "read_timeout",
   "buffers"]

/-- `HostOutput.__init__`: stores each argument unchanged into the
corresponding slot; the body is eight attribute assignments and nothing
else (no other side effect). -/
def HostOutput.init (host : String) (channel : Option Channel) (stdin : Option Stdin)
    (client : Option Client) (exception : Option PyErr) (encoding : String)
    (read_timeout : Option Timeout) (buffers : Option HostOutputBuffers) : HostOutput :=
  { host := host, channel := channel, stdin := stdin, client := client,
    exception := exception, encoding := encoding, read_timeout := read_timeout,
    buffers := buffers }

/-- `HostOutput.__init__` with the optional parameters left at their
declared defaults: `exception=None, encoding='utf-8', read_timeout=None,
buffers=None`. -/
def HostOutput.initDefault (host : String) (channel : Option Channel)
    (stdin : Option Stdin) (client : Option Client) : HostOutput :=
  HostOutput.init host channel stdin client none "utf-8" none none

/-- The `stdout` property body.  `if not self.client: return` yields `None`
(the client object is truthy whenever present, falsy exactly when `None`);
otherwise `self.buffers.stdout.rw_buffer` is read — an `AttributeError` if
`buffers` is `None` — and the client wraps it:
`read_output_buffer(read_output(buffers.stdout.rw_buffer, timeout=read_timeout), encoding=encoding)`
with the `prefix` argument left at its default `None`.
The body assigns no attribute, so the post-state is returned unchanged. -/
def HostOutput.stdoutB (h : HostOutput) : Except PyErr (Option TextGen) × HostOutput :=
  match h.client with
  | none => (.ok none, h)
  | some c =>
    match h.buffers with
    | none => (.error { str := "AttributeError: NoneType object has no attribute stdout" }, h)
    | some b =>
      (.ok (some (c.read_output_buffer
        (c.read_output b.stdout.rw_buffer h.read_timeout) h.encoding none)), h)

/-- The `stderr` property body: same shape as `stdout`, reading the stderr
buffer through `read_stderr` and passing `prefix='\t[err]'` to the wrapper. -/
def HostOutput.stderrB (h : HostOutput) : Except PyErr (Option TextGen) × HostOutput :=
  match h.client with
  | none => (.ok none, h)
  | some c =>
    match h.buffers with
    | none => (.error { str := "AttributeError: NoneType object has no attribute stderr" }, h)
    | some b =>
      (.ok (some (c.read_output_buffer
        (c.read_stderr b.stderr.rw_buffer h.read_timeout) h.encoding (some "\t[err]"))), h)

/-- The value of the `stdout` property. -/
def HostOutput.stdoutE (h : HostOutput) : Except PyErr (Option TextGen) :=
  (h.stdoutB).1

/-- The value of the `stderr` property. -/
def HostOutput.stderrE (h : HostOutput) : Except PyErr (Option TextGen) :=
  (h.stderrB).1

/-- The `exit_code` property body.  `if not self.client: return` yields
`None`; otherwise `self.client.get_exit_status(self.channel)` is queried
live inside `try`; `except Exception as ex` logs
`"Error getting exit status - %s" % ex` and falls off the end of the
function, returning `None`.  Result: the property value (it never raises,
hence plain `Option Int`), the log records emitted, and the post-state. -/
def HostOutput.exit_codeB (h : HostOutput) : (Option Int × List String) × HostOutput :=
  match h.client with
  | none => ((none, []), h)
  | some c =>
    match c.get_exit_status h.channel with
    | .ok v => ((v, []), h)
    | .error ex => ((none, ["Error getting exit status - " ++ ex.str]), h)

/-- The value of the `exit_code` property. -/
def HostOutput.exit_codeE (h : HostOutput) : Option Int :=
  (h.exit_codeB).1.1

/-- The log records emitted by one access of `exit_code`. -/
def HostOutput.exit_codeLogs (h : HostOutput) : List String :=
  (h.exit_codeB).1.2

/-- `os.linesep` on the POSIX platforms the library targets. -/
def linesep : String := "\n"

/-- Python `str(x)` for an optional value: `"None"` when absent. -/
def pyStrOpt {α : Type} (f : α → String) : Option α → String
  | none => "None"
  | some a => f a

/-- Python rendering of a generator object (opaque; only its `None`-ness
is ever distinguished by the claims). -/
def textGenStr : TextGen → String := fun _ => "<generator>"

/-- Python `str` of an optional `int` exit code. -/
def exitCodeStr : Option Int → String
  | none => "None"
  | some i => toString i

/-- `HostOutput.__repr__`: a single format string rendering host,
exit_code, channel, stdout, stderr, stdin, exception, encoding and
read_timeout, joined by `os.linesep`.  The keyword arguments of
`.format` are evaluated left to right in source order — `self.stdout`,
`self.stdin`, `self.stderr`, then `self.exit_code` — so an
`AttributeError` from `stdout` (client present, buffers absent)
propagates out of `__repr__`. -/
def HostOutput.reprE (h : HostOutput) : Except PyErr String := do
  let so ← h.stdoutE
  let si := h.stdin
  let se ← h.stderrE
  let ec := h.exit_codeE
  pure ("\thost=" ++ h.host ++ linesep ++
    "\texit_code=" ++ exitCodeStr ec ++ linesep ++
    "\tchannel=" ++ pyStrOpt Channel.str h.channel ++ linesep ++
    "\tstdout=" ++ pyStrOpt textGenStr so ++ linesep ++
    "\tstderr=" ++ pyStrOpt textGenStr se ++ linesep ++
    "\tstdin=" ++ pyStrOpt Stdin.str si ++ linesep ++
    "\texception=" ++ pyStrOpt PyErr.str h.exception ++ linesep ++
    "\tencoding=" ++ h.encoding ++ linesep ++
    "\tread_timeout=" ++ pyStrOpt Timeout.str h.read_timeout)

/-- `HostOutput.__str__`: `return self.__repr__()`. -/
def HostOutput.strE (h : HostOutput) : Except PyErr String :=
  h.reprE

/-- Python iteration over a possibly-`None` value: `for x in None` raises
`TypeError`, iterating an actual generator succeeds. -/
def pyIterText : Option TextGen → Except PyErr TextGen
  | none => .error { str := "TypeError: NoneType object is not iterable" }
  | some g => .ok g

/-- Whether an accessor result is an actual (non-`None`) sequence. -/
def isSeq : Except PyErr (Option TextGen) → Bool
  | .ok (some _) => true
  | _ => false

/-! ## The fan-out supervisor (spec-modelled)

The `FanOutSupervisor` (`ParallelSSHClient.run_command` and its pool) is
not part of this module's source; only its contract is specified.  The
model below follows spec section 4.4 verbatim: a per-host state machine
`PENDING → CONNECTING → RUNNING → (FINISHED | FAILED)`, with
`CONNECTING → CONNECTING` on a retryable connection failure up to the
retry bound, `CONNECTING → FAILED` on a non-retryable failure or when
retries are exhausted, and `RUNNING → FINISHED/FAILED` by the command's
outcome.  Dispatch is bounded: at most `pool_size` hosts are in their
connection phase at once; each host's outcome is a function of that
host's own script alone. -/

/-- Modelled from the spec: outcome of one connection attempt for a host
(success, retryable transient failure, or non-retryable failure such as
an authentication error). -/
inductive ConnAttempt where
  | success
  | retryable
  | fatal
deriving DecidableEq

/-- Modelled from the spec: the external behaviour of one host —
what its k-th connection attempt does, and whether the command, once
running, completes or dies on a transport error. -/
structure HostScript where
  attempts : Nat → ConnAttempt
  runOk : Bool

/-- Modelled from the spec: per-host supervisor states. -/
inductive HostState where
  | pending
  | connecting (attempt : Nat)
  | running
  | finished
  | failed
deriving DecidableEq

/-- A terminal supervisor state. -/
def HostState.isTerminal : HostState → Bool
  | .finished => true
  | .failed => true
  | _ => false

/-- Modelled from the spec: the connection phase.  Starting at attempt
`k` with `tries` attempts remaining (the initial attempt plus
`num_retries` retries), returns whether a connection is established:
success stops with `true`, a non-retryable failure stops with `false`,
a retryable failure consumes one attempt. -/
def connectOutcome (att : Nat → ConnAttempt) (k : Nat) (tries : Nat) : Bool :=
  match tries with
  | 0 => false
  | t + 1 =>
    match att k with
    | .success => true
    | .fatal => false
    | .retryable => connectOutcome att (k + 1) t

/-- Modelled from the spec: the terminal state one host reaches,
independent of all other hosts: `FAILED` if the connection phase fails
(retries exhausted or non-retryable), else `FINISHED` or `FAILED` by the
command's own outcome. -/
def hostOutcome (num_retries : Nat) (s : HostScript) : HostState :=
  if connectOutcome s.attempts 0 (num_retries + 1) then
    (if s.runOk then .finished else .failed)
  else .failed

/-- Splits a work list into successive dispatch rounds of at most `p`
hosts: the bounded pool admits at most `p` hosts into their connection
phase at a time, the rest queue for a slot. -/
def chunks {α : Type} (p : Nat) (xs : List α) : List (List α) :=
  match xs with
  | [] => []
  | x :: rest => (x :: rest.take (p - 1)) :: chunks p (rest.drop (p - 1))
termination_by xs.length
decreasing_by
  simp only [List.length_drop, List.length_cons]
  omega

/-- Modelled from the spec: the dispatch schedule of `run` — which hosts
are concurrently in their `CONNECTING` phase in each round. -/
def dispatchRounds (pool_size : Nat) (hosts : List HostScript) : List (List HostScript) :=
  chunks pool_size hosts

/-- Modelled from the spec:
`run(hosts, command, pool_size, timeout, num_retries)` — every host of
every round is driven to its own terminal state; the returned collection
has one result per requested host, in order. -/
def runSupervisor (pool_size num_retries : Nat) (hosts : List HostScript) : List HostState :=
  ((dispatchRounds pool_size hosts).map (fun round => round.map (hostOutcome num_retries))).flatten

/-- The rounds of a bounded dispatch reassemble to the original host
list: no host is dropped or duplicated by the pool. -/
theorem chunks_join {α : Type} (p : Nat) (xs : List α) : (chunks p xs).flatten = xs :=
  match xs with
  | [] => by simp [chunks]
  | x :: rest => by
    rw [chunks]
    simp only [List.flatten_cons]
    rw [chunks_join p (rest.drop (p - 1))]
    simp [List.take_append_drop]
termination_by xs.length
decreasing_by
  simp only [List.length_drop, List.length_cons]
  omega

/-- Each dispatch round admits at most `p` hosts when the pool bound is
positive. -/
theorem chunks_bound {α : Type} (p : Nat) (hp : 0 < p) (xs : List α) :
    ∀ r ∈ chunks p xs, r.length ≤ p :=
  match xs with
  | [] => by simp [chunks]
  | x :: rest => by
    rw [chunks]
    intro r hr
    rcases List.mem_cons.mp hr with h | h
    · subst h
      simp only [List.length_cons]
      have := List.length_take_le (p - 1) rest
      omega
    · exact chunks_bound p hp (rest.drop (p - 1)) r h
termination_by xs.length
decreasing_by
  simp only [List.length_drop, List.length_cons]
  omega

/-- Every host's outcome is terminal. -/
theorem hostOutcome_terminal (n : Nat) (s : HostScript) :
    (hostOutcome n s).isTerminal = true := by
  unfold hostOutcome
  split
  · split <;> rfl
  · rfl

/-! ## Concrete instances for witnesses and counterexamples -/

/-- A concrete buffer pair: distinct ring buffers for stdout and stderr. -/
def sampleBuf : HostOutputBuffers :=
  { stdout := { reader := { id := 0 }, rw_buffer := { id := 10 } },
    stderr := { reader := { id := 1 }, rw_buffer := { id := 11 } } }

/-- A canonical client whose reader methods build the free generator
values, and whose exit-status query succeeds with 0. -/
def sampleClient : Client :=
  { read_output := ByteGen.read_output, read_stderr := ByteGen.read_stderr,
    read_output_buffer := TextGen.wrap,
    get_exit_status := fun _ => .ok (some 0), str := "SSHClient" }

/-- A client whose exit-status query raises. -/
def errClient : Client :=
  { read_output := ByteGen.read_output, read_stderr := ByteGen.read_stderr,
    read_output_buffer := TextGen.wrap,
    get_exit_status := fun _ => .error { str := "SessionError" }, str := "SSHClient" }

/-- A host result for a failed connection: exception recorded, no client,
no channel, no stdin, no buffers (as the supervisor constructs it). -/
def hoFailed : HostOutput :=
  HostOutput.init "h1" none none none (some { str := "ConnectionError" }) "utf-8" none none

/-- A host result for a successful command. -/
def hoOk : HostOutput :=
  HostOutput.init "h2" (some { str := "chan2" }) (some { str := "stdin2" })
    (some sampleClient) none "utf-8" (some { str := "1.0" }) (some sampleBuf)

/-- A host result whose client raises on the exit-status query. -/
def hoErrExit : HostOutput :=
  HostOutput.init "h3" (some { str := "chan3" }) none (some errClient) none
    "utf-8" none (some sampleBuf)

/-! ## Claims -/

/-- Claim C1 as stated is false on the code: on a `HostOutput` with a
recorded connection exception and no client, the `stdout`/`stderr`
properties return the Python absent value `None`, not an empty sequence;
and consuming (iterating) that `None` raises `TypeError` rather than
yielding nothing. -/
theorem c1_cex_none_not_empty_seq :
    hoFailed.exception = some { str := "ConnectionError" } ∧
    hoFailed.client = none ∧
    isSeq hoFailed.stdoutE = false ∧
    isSeq hoFailed.stderrE = false ∧
    hoFailed.stdoutE = .ok none ∧
    pyIterText none = .error { str := "TypeError: NoneType object is not iterable" } :=
  ⟨rfl, rfl, rfl, rfl, rfl, rfl⟩

/-- Claim C1 (amended): on a `HostOutput` with a recorded exception and
an absent client, accessing the `stdout` and `stderr` properties does
not raise — each returns the absent value `None` (an early `return` from
`if not self.client`), not an empty sequence; consuming the `None` is
the caller's concern. -/
theorem c1_accessors_return_none_without_raising (h : HostOutput) (e : PyErr)
    (_hexc : h.exception = some e) (hcl : h.client = none) :
    h.stdoutE = .ok none ∧ h.stderrE = .ok none := by
  constructor
  · simp [HostOutput.stdoutE, HostOutput.stdoutB, hcl]
  · simp [HostOutput.stderrE, HostOutput.stderrB, hcl]

/-- Claim C1 witness: the amended property at the concrete failed host. -/
theorem c1_witness : hoFailed.stdoutE = .ok none ∧ hoFailed.stderrE = .ok none :=
  c1_accessors_return_none_without_raising hoFailed { str := "ConnectionError" } rfl rfl

/-- Claim C2: `exit_code` returns `None` when no client is present (with
nothing logged); when the client's exit-status query raises, the
exception is logged — the single log record names it — and `None` is
returned instead of propagating; and in every case the property yields a
value rather than raising (its translation is total into `Option Int`,
the `try/except` having absorbed the only raising call). -/
theorem c2_exit_code_never_raises (h : HostOutput) :
    (h.client = none → h.exit_codeE = none ∧ h.exit_codeLogs = []) ∧
    (∀ c ex, h.client = some c → c.get_exit_status h.channel = .error ex →
      h.exit_codeE = none ∧
      h.exit_codeLogs = ["Error getting exit status - " ++ ex.str]) := by
  constructor
  · intro hcl
    constructor <;>
      simp [HostOutput.exit_codeE, HostOutput.exit_codeLogs, HostOutput.exit_codeB, hcl]
  · intro c ex hcl hg
    constructor <;>
      simp [HostOutput.exit_codeE, HostOutput.exit_codeLogs, HostOutput.exit_codeB, hcl, hg]

/-- Claim C2 witness: at the concrete host whose client raises on the
exit-status query, the property returns `None` and logs the error. -/
theorem c2_witness :
    hoErrExit.exit_codeE = none ∧
    hoErrExit.exit_codeLogs = ["Error getting exit status - SessionError"] := by
  have h := (c2_exit_code_never_raises hoErrExit).2 errClient { str := "SessionError" } rfl rfl
  exact ⟨h.1, by rw [h.2]; rfl⟩

/-- Claim C7: the constructor stores each of its eight arguments
unchanged into the corresponding slot, and (being a pure value
construction in this translation, mirroring a body of exactly eight
attribute assignments) has no other effect. -/
theorem c7_init_stores_arguments (host : String) (channel : Option Channel)
    (stdin : Option Stdin) (client : Option Client) (exception : Option PyErr)
    (encoding : String) (read_timeout : Option Timeout)
    (buffers : Option HostOutputBuffers) :
    (HostOutput.init host channel stdin client exception encoding read_timeout buffers).host = host ∧
    (HostOutput.init host channel stdin client exception encoding read_timeout buffers).channel = channel ∧
    (HostOutput.init host channel stdin client exception encoding read_timeout buffers).stdin = stdin ∧
    (HostOutput.init host channel stdin client exception encoding read_timeout buffers).client = client ∧
    (HostOutput.init host channel stdin client exception encoding read_timeout buffers).exception = exception ∧
    (HostOutput.init host channel stdin client exception encoding read_timeout buffers).encoding = encoding ∧
    (HostOutput.init host channel stdin client exception encoding read_timeout buffers).read_timeout = read_timeout ∧
    (HostOutput.init host channel stdin client exception encoding read_timeout buffers).buffers = buffers :=
  ⟨rfl, rfl, rfl, rfl, rfl, rfl, rfl, rfl⟩

/-- Claim C9: constructing with the optional parameters omitted leaves
`exception = None`, `encoding = 'utf-8'`, `read_timeout = None` and
`buffers = None`, the declared defaults. -/
theorem c9_constructor_defaults (host : String) (channel : Option Channel)
    (stdin : Option Stdin) (client : Option Client) :
    (HostOutput.initDefault host channel stdin client).exception = none ∧
    (HostOutput.initDefault host channel stdin client).encoding = "utf-8" ∧
    (HostOutput.initDefault host channel stdin client).read_timeout = none ∧
    (HostOutput.initDefault host channel stdin client).buffers = none :=
  ⟨rfl, rfl, rfl, rfl⟩

/-- Claim C10: the three accessors are pure readers — the post-state each
body returns is the input state, all eight slots unchanged; no branch of
any accessor assigns an attribute. -/
theorem c10_accessors_leave_state_unchanged (h : HostOutput) :
    (h.stdoutB).2 = h ∧ (h.stderrB).2 = h ∧ (h.exit_codeB).2 = h := by
  refine ⟨?_, ?_, ?_⟩
  · cases hc : h.client with
    | none => simp [HostOutput.stdoutB, hc]
    | some c => cases hb : h.buffers <;> simp [HostOutput.stdoutB, hc, hb]
  · cases hc : h.client with
    | none => simp [HostOutput.stderrB, hc]
    | some c => cases hb : h.buffers <;> simp [HostOutput.stderrB, hc, hb]
  · cases hc : h.client with
    | none => simp [HostOutput.exit_codeB, hc]
    | some c => cases hg : c.get_exit_status h.channel <;>
        simp [HostOutput.exit_codeB, hc, hg]

/-- Claim C3: with a client present (and the buffer pair it was
constructed with), each access of `stdout` returns the client's decoding
wrapper applied to the client's `read_output` over the stdout ring
buffer with the stored `read_timeout`, under the stored `encoding` (and
the wrapper's default `None` prefix); the access reads the current
slots, builds the value afresh, and leaves the object unchanged — no
read is performed and nothing is cached or consumed (the result is a
function of the slots alone). -/
theorem c3_stdout_rewraps_buffer (h : HostOutput) (c : Client) (b : HostOutputBuffers)
    (hc : h.client = some c) (hb : h.buffers = some b) :
    h.stdoutB = (.ok (some (c.read_output_buffer
      (c.read_output b.stdout.rw_buffer h.read_timeout) h.encoding none)), h) := by
  simp [HostOutput.stdoutB, hc, hb]

/-- Claim C3 witness: at the concrete running host, `stdout` is the
wrapper over the stdout ring buffer (id 10) with the stored timeout and
encoding. -/
theorem c3_witness :
    hoOk.stdoutB = (.ok (some (TextGen.wrap
      (ByteGen.read_output { id := 10 } (some { str := "1.0" })) "utf-8" none)), hoOk) :=
  c3_stdout_rewraps_buffer hoOk sampleClient sampleBuf rfl rfl

/-- Claim C4: with a client and buffer pair present, `stderr` is built
exactly as `stdout` — same decoding wrapper, same stored encoding, same
stored read timeout — differing only in reading the stderr ring buffer
via the client's `read_stderr` and passing the line-prefix annotation
`'\t[err]'` to the wrapper (where `stdout` passes the default `None`). -/
theorem c4_stderr_differs_only_in_buffer_and_pfx (h : HostOutput) (c : Client)
    (b : HostOutputBuffers) (hc : h.client = some c) (hb : h.buffers = some b) :
    h.stderrB = (.ok (some (c.read_output_buffer
      (c.read_stderr b.stderr.rw_buffer h.read_timeout) h.encoding (some "\t[err]"))), h) ∧
    h.stdoutB = (.ok (some (c.read_output_buffer
      (c.read_output b.stdout.rw_buffer h.read_timeout) h.encoding none)), h) := by
  constructor
  · simp [HostOutput.stderrB, hc, hb]
  · simp [HostOutput.stdoutB, hc, hb]

/-- Claim C4 witness: at the concrete running host, `stderr` wraps the
stderr ring buffer (id 11) with the `'\t[err]'` prefix, while `stdout`
wraps the stdout ring buffer (id 10) with no prefix. -/
theorem c4_witness :
    hoOk.stderrB = (.ok (some (TextGen.wrap
      (ByteGen.read_stderr { id := 11 } (some { str := "1.0" })) "utf-8" (some "\t[err]"))), hoOk) ∧
    hoOk.stdoutB = (.ok (some (TextGen.wrap
      (ByteGen.read_output { id := 10 } (some { str := "1.0" })) "utf-8" none)), hoOk) :=
  c4_stderr_differs_only_in_buffer_and_pfx hoOk sampleClient sampleBuf rfl rfl

/-- Claim C5: with connection handle, channel, stdin and buffers all
absent, `__repr__` raises nothing and renders host, exit code, channel,
stdout, stderr, stdin, exception, encoding and read timeout in one
string (the absent upstream values printing as `None`), and `__str__`
returns exactly `__repr__`. -/
theorem c5_repr_renders_all_fields_without_raising (h : HostOutput)
    (hcl : h.client = none) (hch : h.channel = none) (hsi : h.stdin = none)
    (_hbu : h.buffers = none) :
    h.reprE = .ok ("\thost=" ++ h.host ++ linesep ++
      "\texit_code=" ++ "None" ++ linesep ++
      "\tchannel=" ++ "None" ++ linesep ++
      "\tstdout=" ++ "None" ++ linesep ++
      "\tstderr=" ++ "None" ++ linesep ++
      "\tstdin=" ++ "None" ++ linesep ++
      "\texception=" ++ pyStrOpt PyErr.str h.exception ++ linesep ++
      "\tencoding=" ++ h.encoding ++ linesep ++
      "\tread_timeout=" ++ pyStrOpt Timeout.str h.read_timeout) ∧
    h.strE = h.reprE := by
  refine ⟨?_, rfl⟩
  simp [HostOutput.reprE, HostOutput.stdoutE, HostOutput.stderrE, HostOutput.stdoutB,
    HostOutput.stderrB, HostOutput.exit_codeE, HostOutput.exit_codeB, hcl, hch, hsi,
    pyStrOpt, exitCodeStr]
  rfl

/-- Claim C5 witness: the representation of the concrete failed host is
that single diagnostic string. -/
theorem c5_witness :
    hoFailed.reprE = .ok ("\thost=h1\n\texit_code=None\n\tchannel=None\n\tstdout=None" ++
      "\n\tstderr=None\n\tstdin=None\n\texception=ConnectionError\n\tencoding=utf-8" ++
      "\n\tread_timeout=None") := by
  have h := c5_repr_renders_all_fields_without_raising hoFailed rfl rfl rfl rfl
  rw [h.1]
  rfl

/-- Claim C6: the class stores exactly the eight declared slots — in
particular no `exit_code` and no finished flag — and every `exit_code`
access queries the client's `get_exit_status` live on the stored
channel, its result (or `None` on a raised exception) being returned
rather than any cached value. -/
theorem c6_exit_state_not_cached :
    HostOutput.slots = ["host", "channel", "stdin", "client", "exception",
      "encoding", "read_timeout", "buffers"] ∧
    "exit_code" ∉ HostOutput.slots ∧
    "finished" ∉ HostOutput.slots ∧
    ∀ (h : HostOutput) (c : Client), h.client = some c →
      h.exit_codeE = (match c.get_exit_status h.channel with
        | .ok v => v
        | .error _ => none) := by
  refine ⟨rfl, by decide, by decide, ?_⟩
  intro h c hc
  cases hg : c.get_exit_status h.channel <;>
    simp [HostOutput.exit_codeE, HostOutput.exit_codeB, hc, hg]

/-- Claim C6 witness: the concrete running host's exit code is the live
answer of its client's query. -/
theorem c6_witness : hoOk.exit_codeE = some 0 := by
  have h := c6_exit_state_not_cached.2.2.2 hoOk sampleClient rfl
  exact h

/-- Claim C8 (supervisor modelled from the spec): for a positive pool
bound, every dispatch round admits at most `pool_size` hosts into their
connection phase; the results of `run` are exactly the per-host outcomes
`hostOutcome num_retries` mapped over the hosts in order — each host's
result a function of that host's own script alone, so no host's failure
can cancel or alter another's — and every returned state is terminal
(`FINISHED` or `FAILED`). -/
theorem c8_run_bounded_terminal_independent (pool_size num_retries : Nat)
    (hosts : List HostScript) (hp : 0 < pool_size) :
    (∀ r ∈ dispatchRounds pool_size hosts, r.length ≤ pool_size) ∧
    runSupervisor pool_size num_retries hosts = hosts.map (hostOutcome num_retries) ∧
    (∀ st ∈ runSupervisor pool_size num_retries hosts, st.isTerminal = true) := by
  have heq : runSupervisor pool_size num_retries hosts
      = hosts.map (hostOutcome num_retries) := by
    unfold runSupervisor dispatchRounds
    rw [← List.map_flatten, chunks_join]
  refine ⟨chunks_bound pool_size hp hosts, heq, ?_⟩
  intro st hst
  rw [heq] at hst
  obtain ⟨s, _, rfl⟩ := List.mem_map.mp hst
  exact hostOutcome_terminal num_retries s

/-- One host that connects on the first attempt and finishes cleanly. -/
def scrOk : HostScript := { attempts := fun _ => .success, runOk := true }

/-- One host whose connection fails non-retryably. -/
def scrFatal : HostScript := { attempts := fun _ => .fatal, runOk := true }

/-- One host whose first attempt fails transiently and whose retry
succeeds. -/
def scrRetry : HostScript :=
  { attempts := fun k => if k = 0 then .retryable else .success, runOk := true }

/-- Claim C8 witness: with pool bound 2 and one retry over three hosts
(one clean, one fatally failing, one succeeding on retry), each dispatch
round holds at most two hosts, and the run returns `FINISHED, FAILED,
FINISHED` — the middle host's failure leaving its neighbours untouched. -/
theorem c8_witness :
    (∀ r ∈ dispatchRounds 2 [scrOk, scrFatal, scrRetry], r.length ≤ 2) ∧
    runSupervisor 2 1 [scrOk, scrFatal, scrRetry] =
      [.finished, .failed, .finished] := by
  have h := c8_run_bounded_terminal_independent 2 1 [scrOk, scrFatal, scrRetry] (by decide)
  refine ⟨h.1, ?_⟩
  rw [h.2.1]
  rfl
